import Mathlib

/-!
Verification of the order-settlement core of a Hono / Cloudflare-Workers
e-commerce API backed by a Neon PostgreSQL database.

The model below is a shallow embedding of the TypeScript route handlers:

* the database is an explicit `DB` record of table rows (lists, in creation
  order, standing in for `ORDER BY created_at`);
* every SQL statement is a pure function on `DB`; a statement that the
  database would reject (NOT NULL, CHECK or unique/FK violation) returns an
  error and leaves the state unchanged, matching single-statement
  autocommit semantics of the `neon` serverless driver (the handlers open
  no transaction, so each statement commits independently);
* the PostgreSQL unique constraint `UNIQUE(cart_id, product_id, variant_id)`
  treats NULLs as distinct (default NULLS DISTINCT), so an
  `ON CONFLICT (cart_id, product_id, variant_id)` arm can fire only for a
  non-null `variant_id`; the embedding reproduces this;
* external collaborators (Stripe hosted checkout, signature verification)
  appear as inputs: the session identifier returned by Stripe is an
  argument, and signature verification is a boolean field of the webhook
  request (`constructEventAsync` succeeded or threw).
-/

namespace Bizify

/-- A row of `products`: the columns the settlement core reads
(`SELECT id, price_cents FROM products WHERE id = ... AND is_active = TRUE`). -/
structure Product where
  id : Nat
  price_cents : Int
  is_active : Bool
  deriving Repr, DecidableEq

/-- A row of `variants`. `price_cents = none` inherits the product price
(schema: `price_cents INT — NULL inherits product price`). -/
structure Variant where
  id : Nat
  price_cents : Option Int
  stock_qty : Int
  deriving Repr, DecidableEq

/-- A row of `carts`: owner is a user id or an anonymous session token. -/
structure Cart where
  id : Nat
  user_id : Option Nat
  session_token : Option String
  stripe_session_id : Option String
  deriving Repr, DecidableEq

/-- A row of `cart_items`, with the price snapshot captured at add time. -/
structure CartItem where
  id : Nat
  cart_id : Nat
  product_id : Nat
  variant_id : Option Nat
  quantity : Int
  price_cents : Int
  deriving Repr, DecidableEq

/-- A row of `orders`: the columns the webhook settlement writes. -/
structure Order where
  id : Nat
  user_id : Option Nat
  status : String
  stripe_session_id : Option String
  stripe_payment_intent_id : Option String
  subtotal_cents : Int
  total_cents : Int
  customer_email : String
  deriving Repr, DecidableEq

/-- A row of `order_items`: exactly the columns the settlement INSERT lists
(`order_id, product_id, product_name, quantity, unit_price_cents, total_cents`). -/
structure OrderItem where
  id : Nat
  order_id : Nat
  product_id : Nat
  product_name : String
  quantity : Int
  unit_price_cents : Int
  total_cents : Int
  deriving Repr, DecidableEq

/-- A row of `users`: only the column settlement touches. -/
structure User where
  id : Nat
  stripe_customer_id : Option String
  deriving Repr, DecidableEq

/-- A row of `stripe_webhook_events` — the event dedup ledger.
`error = none` is a Recorded-Success row, `error = some msg` Recorded-Failure. -/
structure WebhookEventRow where
  id : String
  type : String
  error : Option String
  deriving Repr, DecidableEq

/-- The database state. Lists are in insertion (creation) order; `next_id`
models the id generator for freshly inserted rows. -/
structure DB where
  products : List Product
  variants : List Variant
  carts : List Cart
  cart_items : List CartItem
  orders : List Order
  order_items : List OrderItem
  users : List User
  stripe_webhook_events : List WebhookEventRow
  next_id : Nat
  deriving Repr, DecidableEq

/-! ### Stock arithmetic

The two write paths for a variant's stock counter named by the spec:
the settlement decrement and the admin relative adjustment. Both appear in
the source as `GREATEST(0, ...)` UPDATE expressions. -/

/-- `UPDATE variants SET stock_qty = GREATEST(0, stock_qty - n)` —
the settlement decrement (webhook handler, checkout.session.completed). -/
def decrementStock (q n : Int) : Int := max 0 (q - n)

/-- `UPDATE variants SET stock_qty = GREATEST(0, stock_qty + adj)` —
the admin relative adjustment (`PATCH /admin/variants/:id/stock` with an
`adjustment` body). -/
def adjustStock (q adj : Int) : Int := max 0 (q + adj)

/-- One stock write of the two kinds the claim quantifies over. -/
inductive StockOp where
  | settle (n : Int)
  | adjust (adj : Int)
  deriving Repr, DecidableEq

/-- Apply one stock write to a stored value. -/
def applyStockOp (q : Int) : StockOp → Int
  | .settle n => decrementStock q n
  | .adjust a => adjustStock q a

/-- Apply a sequence of stock writes left to right. -/
def applyStockOps (q : Int) (ops : List StockOp) : Int :=
  ops.foldl applyStockOp q

/-! ### Cart item ledger (`cart.post`, `cart.delete` routes) -/

/-- `SELECT id, price_cents FROM products WHERE id = pid AND is_active = TRUE`. -/
def findProduct (db : DB) (pid : Nat) : Option Product :=
  db.products.find? (fun p => p.id == pid && p.is_active)

/-- `SELECT price_cents, stock_qty FROM variants WHERE id = vid`. -/
def findVariant (db : DB) (vid : Nat) : Option Variant :=
  db.variants.find? (fun v => v.id == vid)

/-- `INSERT INTO cart_items ... ON CONFLICT (cart_id, product_id, variant_id)
DO UPDATE SET quantity = cart_items.quantity + qty RETURNING *`.

PostgreSQL's unique constraint treats NULL `variant_id` values as distinct,
so the conflict arm can fire only when `vid` is non-null; with `vid = none`
the statement always inserts a fresh row. The schema's
`CHECK (quantity > 0)` applies to the inserted or updated row and a
violation fails the statement. The FK constraints on `cart_id`,
`product_id` and `variant_id` cannot fire on this route (the cart row was
just resolved or created, and product/variant were looked up above) and
are not modelled. -/
def insertCartItemUpsert (db : DB) (cartId pid : Nat) (vid : Option Nat)
    (qty price : Int) : Except String (DB × CartItem) :=
  match vid with
  | some v =>
    match db.cart_items.find?
        (fun ci => ci.cart_id == cartId && ci.product_id == pid && ci.variant_id == some v) with
    | some existing =>
      if existing.quantity + qty ≤ 0 then
        .error "new row violates check constraint cart_items_quantity_check"
      else
        let updated := { existing with quantity := existing.quantity + qty }
        .ok ({ db with cart_items :=
                 db.cart_items.map fun ci => if ci.id == existing.id then updated else ci },
             updated)
    | none =>
      if qty ≤ 0 then
        .error "new row violates check constraint cart_items_quantity_check"
      else
        let item : CartItem :=
          { id := db.next_id, cart_id := cartId, product_id := pid,
            variant_id := some v, quantity := qty, price_cents := price }
        .ok ({ db with cart_items := db.cart_items ++ [item], next_id := db.next_id + 1 }, item)
  | none =>
    if qty ≤ 0 then
      .error "new row violates check constraint cart_items_quantity_check"
    else
      let item : CartItem :=
        { id := db.next_id, cart_id := cartId, product_id := pid,
          variant_id := none, quantity := qty, price_cents := price }
      .ok ({ db with cart_items := db.cart_items ++ [item], next_id := db.next_id + 1 }, item)

/-- Outcome of `POST /cart/items`. `productNotFound`/`variantNotFound` are the
two 404s, `insufficientStock` the 400 'Insufficient stock',
`dbError` a thrown statement error surfacing as a 500. -/
inductive AddItemResult where
  | productNotFound
  | variantNotFound
  | insufficientStock
  | dbError (msg : String)
  | ok (item : CartItem)
  deriving Repr, DecidableEq

/-- Embeds `cart.post('/items')`. `cartId` is the id of the cart produced by
`resolveCart(c, sql, true)`. The handler: looks up the active product (404
otherwise); if a variant id is given, looks up the variant (404 otherwise),
throws 'Insufficient stock' when `variant.stock_qty < quantity`, and
overrides the unit price when the variant carries one; then runs the
upsert. A statement failure leaves the state unchanged. Note the handler
performs no `quantity ≥ 1` validation of its own. -/
def addItem (db : DB) (cartId pid : Nat) (vid : Option Nat) (qty : Int) :
    DB × AddItemResult :=
  match findProduct db pid with
  | none => (db, .productNotFound)
  | some product =>
    match vid with
    | some v =>
      match findVariant db v with
      | none => (db, .variantNotFound)
      | some variant =>
        if variant.stock_qty < qty then (db, .insufficientStock)
        else
          let price :=
            match variant.price_cents with
            | some pc => pc
            | none => product.price_cents
          match insertCartItemUpsert db cartId pid (some v) qty price with
          | .error e => (db, .dbError e)
          | .ok (db2, item) => (db2, .ok item)
    | none =>
      match insertCartItemUpsert db cartId pid none qty product.price_cents with
      | .error e => (db, .dbError e)
      | .ok (db2, item) => (db2, .ok item)

/-- Read-only cart resolution, `resolveCart(c, sql, false)`: for an
authenticated user the most recently created cart owned by that user
(`ORDER BY created_at DESC LIMIT 1` — the last matching element in
creation order), else the cart whose session token matches the
X-Cart-Token header. -/
def resolveCartRO (db : DB) (userId : Option Nat) (tok : Option String) : Option Cart :=
  match userId with
  | some uid => (db.carts.filter (fun ct => ct.user_id == some uid)).getLast?
  | none =>
    match tok with
    | some t => db.carts.find? (fun ct => ct.session_token == some t)
    | none => none

/-- The recomputed cart snapshot of `getCartWithItems`: the cart's rows in
creation order, the subtotal `Σ price × qty` and the item count `Σ qty`.
The joined display columns (product name, image, variant name) carry no
state and are omitted. -/
structure CartSnapshot where
  items : List CartItem
  subtotal : Int
  item_count : Int
  deriving Repr, DecidableEq

/-- Embeds `getCartWithItems(cartId, sql)`. -/
def getCartWithItems (db : DB) (cartId : Nat) : CartSnapshot :=
  let items := db.cart_items.filter (fun ci => ci.cart_id == cartId)
  { items := items,
    subtotal := (items.map (fun i => i.price_cents * i.quantity)).sum,
    item_count := (items.map (fun i => i.quantity)).sum }

/-- Outcome of `DELETE /cart/items/:itemId`: 404 when no cart resolves,
otherwise success with the recomputed snapshot. -/
inductive RemoveItemResult where
  | cartNotFound
  | ok (snap : CartSnapshot)
  deriving Repr, DecidableEq

/-- Embeds `cart.delete('/items/:itemId')`: resolve the cart (404 if none),
`DELETE FROM cart_items WHERE id = itemId AND cart_id = cart.id` (deleting
zero rows is not an error), and return the recomputed snapshot. -/
def removeItem (db : DB) (uid : Option Nat) (tok : Option String) (itemId : Nat) :
    DB × RemoveItemResult :=
  match resolveCartRO db uid tok with
  | none => (db, .cartNotFound)
  | some cartRow =>
    let db2 := { db with cart_items :=
      db.cart_items.filter fun ci => !(ci.id == itemId && ci.cart_id == cartRow.id) }
    (db2, .ok (getCartWithItems db2 cartRow.id))

/-! ### Checkout session builder (`checkout.post('/session')`) -/

/-- Outcome of `POST /checkout/session`: the 400 'Cart is empty' (raised both
when no cart resolves and when the resolved cart has zero items), or
success carrying the session identifier returned by the payment processor. -/
inductive CheckoutResult where
  | emptyCart
  | ok (session_id : String)
  deriving Repr, DecidableEq

/-- Embeds `checkout.post('/session')`. The call to
`stripe.checkout.sessions.create` is external; the identifier it returns is
the `newSessionId` argument. The only statement the handler writes is
`UPDATE carts SET stripe_session_id = session.id WHERE id = cart.id`,
overwriting any prior session identifier (the read of the user's
`stripe_customer_id` mutates nothing). -/
def createSession (db : DB) (uid : Option Nat) (tok : Option String)
    (newSessionId : String) : DB × CheckoutResult :=
  match resolveCartRO db uid tok with
  | none => (db, .emptyCart)
  | some cartRow =>
    let snap := getCartWithItems db cartRow.id
    if snap.items.isEmpty then (db, .emptyCart)
    else
      ({ db with carts := db.carts.map fun ct =>
           if ct.id == cartRow.id then { ct with stripe_session_id := some newSessionId } else ct },
       .ok newSessionId)

/-! ### Settlement engine (`webhooks.post('/stripe')` and `processStripeEvent`) -/

/-- One line of the retrieved full checkout session
(`line_items.data`, expanded with `price.product`). `quantity` and
`unit_amount` carry the `?? 1` / `?? 0` defaults already applied;
`meta_product_id` / `meta_variant_id` are the correlation metadata planted
by the checkout session builder, `none` for absent or empty. -/
structure SessionLineItem where
  description : String
  quantity : Int
  unit_amount : Int
  meta_product_id : Option Nat
  meta_variant_id : Option Nat
  deriving Repr, DecidableEq

/-- The checkout-session object of a `checkout.session.completed` event,
after the `sessions.retrieve` expansion: correlation metadata
(`cart_id`, `user_id` — `none` for the literal 'anonymous'), payment
intent, amounts with their `?? 0` defaults applied, customer e-mail with
its `?? ''` default, the provider-side customer identifier, and the frozen
line items. -/
structure CheckoutSessionObj where
  id : String
  payment_intent : String
  cart_id : Option Nat
  user_id : Option Nat
  amount_subtotal : Int
  amount_total : Int
  customer_email : String
  customer : Option String
  line_items : List SessionLineItem
  deriving Repr, DecidableEq

/-- The payload union of a webhook event, mirroring the `switch (event.type)`
arms; `other` covers every event type the engine does not handle. -/
inductive StripeEventData where
  | checkoutSessionCompleted (s : CheckoutSessionObj)
  | paymentIntentPaymentFailed (payment_intent : String)
  | chargeRefunded (payment_intent : String)
  | other (t : String)
  deriving Repr, DecidableEq

/-- The `event.type` string recorded in the dedup ledger row. -/
def eventType : StripeEventData → String
  | .checkoutSessionCompleted _ => "checkout.session.completed"
  | .paymentIntentPaymentFailed _ => "payment_intent.payment_failed"
  | .chargeRefunded _ => "charge.refunded"
  | .other t => t

/-- A webhook event: the processor-assigned globally unique identifier and
the parsed payload. -/
structure StripeEvent where
  id : String
  data : StripeEventData
  deriving Repr, DecidableEq

/-- An inbound webhook request. `signature_valid` records whether
`stripe.webhooks.constructEventAsync` accepted the `stripe-signature`
header for the raw body (it throws otherwise). -/
structure WebhookRequest where
  signature_valid : Bool
  event : StripeEvent
  deriving Repr, DecidableEq

/-- `SELECT id FROM stripe_webhook_events WHERE id = eid` — the dedup check
tests only row existence, never the row's outcome column. -/
def seenEvent (db : DB) (eid : String) : Bool :=
  db.stripe_webhook_events.any (fun r => r.id == eid)

/-- `INSERT INTO orders (...) VALUES (...) RETURNING id`. Fails on the
unique constraints of `stripe_session_id` / `stripe_payment_intent_id`, or
on the FK to `users` when a user id is given that has no row. On success
appends the order row and returns its id. -/
def insertOrder (db : DB) (s : CheckoutSessionObj) : Except String (DB × Nat) :=
  if db.orders.any (fun o =>
      o.stripe_session_id == some s.id ∨ o.stripe_payment_intent_id == some s.payment_intent) then
    .error "duplicate key value violates a unique constraint on orders"
  else if (match s.user_id with
           | some uid => !(db.users.any (fun u => u.id == uid))
           | none => false) then
    .error "insert on orders violates foreign key constraint orders_user_id_fkey"
  else
    let o : Order :=
      { id := db.next_id, user_id := s.user_id, status := "paid",
        stripe_session_id := some s.id,
        stripe_payment_intent_id := some s.payment_intent,
        subtotal_cents := s.amount_subtotal, total_cents := s.amount_total,
        customer_email := s.customer_email }
    .ok ({ db with orders := db.orders ++ [o], next_id := db.next_id + 1 }, o.id)

/-- `INSERT INTO order_items (...)` for one line item. The statement passes
`product.metadata.product_id ?? null` for the NOT NULL `product_id`
column, so a line without product metadata fails the statement; a
metadata id with no `products` row fails the FK. -/
def insertOrderItem (db : DB) (oid : Nat) (li : SessionLineItem) : Except String DB :=
  match li.meta_product_id with
  | none => .error "null value in column product_id of order_items violates not-null constraint"
  | some pid =>
    if db.products.any (fun p => p.id == pid) then
      let oi : OrderItem :=
        { id := db.next_id, order_id := oid, product_id := pid,
          product_name := li.description, quantity := li.quantity,
          unit_price_cents := li.unit_amount,
          total_cents := li.unit_amount * li.quantity }
      .ok { db with order_items := db.order_items ++ [oi], next_id := db.next_id + 1 }
    else .error "insert on order_items violates foreign key constraint order_items_product_id_fkey"

/-- `UPDATE variants SET stock_qty = GREATEST(0, stock_qty - qty)
WHERE id = vid` — updating zero rows is not an error. -/
def settleDecrement (db : DB) (vid : Nat) (qty : Int) : DB :=
  { db with variants := db.variants.map fun v =>
      if v.id == vid then { v with stock_qty := decrementStock v.stock_qty qty } else v }

/-- The per-line-item loop of the checkout.session.completed arm: insert the
order item, then, when the line carries variant metadata, decrement that
variant's stock. A failing statement aborts the loop; the state at the
failure point (all previously committed statements included) travels with
the error. -/
def processLineItems (oid : Nat) : DB → List SessionLineItem → Except (DB × String) DB
  | db, [] => .ok db
  | db, li :: rest =>
    match insertOrderItem db oid li with
    | .error e => .error (db, e)
    | .ok db1 =>
      let db2 :=
        match li.meta_variant_id with
        | some vid => settleDecrement db1 vid li.quantity
        | none => db1
      processLineItems oid db2 rest

/-- The checkout.session.completed arm of `processStripeEvent`: break when
the metadata carries no cart id; otherwise insert the order, run the
line-item loop, persist the provider customer id when the payer is a known
user, and clear the cart's items. The statements autocommit one by one,
so an error carries the state reached so far. -/
def processCheckoutCompleted (db : DB) (s : CheckoutSessionObj) : Except (DB × String) DB :=
  match s.cart_id with
  | none => .ok db
  | some cartId =>
    match insertOrder db s with
    | .error e => .error (db, e)
    | .ok (db1, oid) =>
      match processLineItems oid db1 s.line_items with
      | .error r => .error r
      | .ok db2 =>
        let db3 :=
          match s.user_id, s.customer with
          | some uid, some cust =>
            { db2 with users := db2.users.map fun (u : User) =>
                if u.id == uid then { u with stripe_customer_id := some cust } else u }
          | _, _ => db2
        .ok { db3 with cart_items := db3.cart_items.filter (fun ci => !(ci.cart_id == cartId)) }

/-- Embeds `processStripeEvent(event, sql, stripe)`: the switch over the
event kind. `payment_intent.payment_failed` and `charge.refunded` are
single UPDATE statements matching zero or more orders by payment-intent
correlation (matching zero rows is not an error); unhandled kinds fall
through the switch doing nothing. -/
def processStripeEvent (db : DB) (e : StripeEvent) : Except (DB × String) DB :=
  match e.data with
  | .checkoutSessionCompleted s => processCheckoutCompleted db s
  | .paymentIntentPaymentFailed pi =>
    .ok { db with orders := db.orders.map fun o =>
        if o.stripe_payment_intent_id == some pi then { o with status := "pending" } else o }
  | .chargeRefunded pi =>
    .ok { db with orders := db.orders.map fun o =>
        if o.stripe_payment_intent_id == some pi then { o with status := "refunded" } else o }
  | .other _ => .ok db

/-- The HTTP outcome of the webhook intake. `badSignature` is the 400
'Webhook error', `ackDuplicate` the success-no-op
`{received: true, duplicate: true}`, `ackReceived` the success
`{received: true}`, `processingFailed` the 500 'Webhook processing
failed'. -/
inductive WebhookResponse where
  | badSignature
  | ackDuplicate
  | ackReceived
  | processingFailed
  deriving Repr, DecidableEq

/-- The catch branch of the webhook route: upsert the dedup row with the
error text (`INSERT ... ON CONFLICT (id) DO UPDATE SET error = msg`). -/
def recordEventFailure (db : DB) (e : StripeEvent) (msg : String) : DB :=
  if seenEvent db e.id then
    { db with stripe_webhook_events := db.stripe_webhook_events.map fun r =>
        if r.id == e.id then { r with error := some msg } else r }
  else
    { db with stripe_webhook_events :=
        db.stripe_webhook_events ++ [{ id := e.id, type := eventType e.data, error := some msg }] }

/-- Embeds `webhooks.post('/stripe')`: reject on bad signature before
anything else; answer success-no-op when the dedup ledger already holds
the event id; otherwise process, then record Recorded-Success, or on a
thrown error record Recorded-Failure with the error text and surface a
500. -/
def handleStripeWebhook (db : DB) (req : WebhookRequest) : WebhookResponse × DB :=
  if req.signature_valid then
    if seenEvent db req.event.id then (.ackDuplicate, db)
    else
      match processStripeEvent db req.event with
      | .ok db1 =>
        (.ackReceived,
         { db1 with stripe_webhook_events := db1.stripe_webhook_events ++
             [{ id := req.event.id, type := eventType req.event.data, error := none }] })
      | .error (db1, msg) => (.processingFailed, recordEventFailure db1 req.event msg)
  else (.badSignature, db)

/-- Deliver the same webhook request `n` times in sequence, collecting the
acknowledgment of each delivery in order. -/
def deliverRepeatedly (db : DB) (req : WebhookRequest) : Nat → DB × List WebhookResponse
  | 0 => (db, [])
  | n + 1 =>
    let step := handleStripeWebhook db req
    let rest := deliverRepeatedly step.2 req n
    (rest.1, step.1 :: rest.2)

/-- Project the database out of a statement-sequence outcome: the committed
state on success, the state reached at the failure point on error. -/
def exDB : Except (DB × String) DB → DB
  | .ok d => d
  | .error r => r.1

/-! ### Concrete states used by the witnesses and counterexamples -/

/-- Cart-ledger state: active product 1 (price 1000), its variant 5 with
live stock 3, and anonymous cart 7 already holding quantity 3 of
(product 1, variant 5). -/
def dbC3 : DB :=
  { products := [{ id := 1, price_cents := 1000, is_active := true }],
    variants := [{ id := 5, price_cents := none, stock_qty := 3 }],
    carts := [{ id := 7, user_id := none, session_token := some "tok3", stripe_session_id := none }],
    cart_items := [{ id := 20, cart_id := 7, product_id := 1, variant_id := some 5,
                     quantity := 3, price_cents := 1000 }],
    orders := [], order_items := [], users := [], stripe_webhook_events := [], next_id := 100 }

/-- Cart-ledger state with an empty cart 7 and active product 1; no variants. -/
def dbC4 : DB :=
  { products := [{ id := 1, price_cents := 1000, is_active := true }],
    variants := [],
    carts := [{ id := 7, user_id := none, session_token := some "tok4", stripe_session_id := none }],
    cart_items := [], orders := [], order_items := [], users := [],
    stripe_webhook_events := [], next_id := 50 }

/-- Anonymous cart row used by the removeItem witness. -/
def cartC8 : Cart :=
  { id := 7, user_id := none, session_token := some "tok8", stripe_session_id := none }

/-- State for the removeItem witness: cart 7 holds one line (row 20). -/
def dbC8 : DB :=
  { products := [{ id := 1, price_cents := 1000, is_active := true }],
    variants := [], carts := [cartC8],
    cart_items := [{ id := 20, cart_id := 7, product_id := 1, variant_id := none,
                     quantity := 2, price_cents := 1000 }],
    orders := [], order_items := [], users := [], stripe_webhook_events := [], next_id := 60 }

/-- Anonymous cart row used by the createSession witness; it already holds a
prior payment-session identifier, which the new session overwrites. -/
def cartC9 : Cart :=
  { id := 7, user_id := none, session_token := some "tok9", stripe_session_id := some "cs_old" }

/-- State for the createSession witness: cart 7 holds one line. -/
def dbC9 : DB :=
  { products := [{ id := 1, price_cents := 1000, is_active := true }],
    variants := [], carts := [cartC9],
    cart_items := [{ id := 21, cart_id := 7, product_id := 1, variant_id := none,
                     quantity := 1, price_cents := 1000 }],
    orders := [], order_items := [], users := [], stripe_webhook_events := [], next_id := 70 }

/-- Settlement state: product 1, variant 5 with stock 10, cart 7 holding
quantity 2 of (product 1, variant 5); no order or ledger rows yet. -/
def dbC1 : DB :=
  { products := [{ id := 1, price_cents := 1000, is_active := true }],
    variants := [{ id := 5, price_cents := none, stock_qty := 10 }],
    carts := [{ id := 7, user_id := none, session_token := some "tok1", stripe_session_id := some "cs_1" }],
    cart_items := [{ id := 20, cart_id := 7, product_id := 1, variant_id := some 5,
                     quantity := 2, price_cents := 1000 }],
    orders := [], order_items := [], users := [], stripe_webhook_events := [], next_id := 200 }

/-- The retrieved full checkout session of the successful settlement event:
one frozen line item correlating product 1 / variant 5 at quantity 2. -/
def sC1 : CheckoutSessionObj :=
  { id := "cs_1", payment_intent := "pi_1", cart_id := some 7, user_id := none,
    amount_subtotal := 2000, amount_total := 2000,
    customer_email := "shopper@example.com", customer := none,
    line_items := [{ description := "Obsidian Hoodie", quantity := 2, unit_amount := 1000,
                     meta_product_id := some 1, meta_variant_id := some 5 }] }

/-- A correctly signed `checkout.session.completed` delivery of event evt_1. -/
def reqC1 : WebhookRequest :=
  { signature_valid := true,
    event := { id := "evt_1", data := .checkoutSessionCompleted sC1 } }

/-- The state committed by a successful processing of evt_1. -/
def dbC1ok : DB := exDB (processStripeEvent dbC1 reqC1.event)

/-- Settlement state for the partial-failure run: like `dbC1` but the event
below fails on its second line item. -/
def dbC2 : DB :=
  { products := [{ id := 1, price_cents := 1000, is_active := true }],
    variants := [{ id := 5, price_cents := none, stock_qty := 10 }],
    carts := [{ id := 7, user_id := none, session_token := some "tok2", stripe_session_id := some "cs_2" }],
    cart_items := [{ id := 20, cart_id := 7, product_id := 1, variant_id := some 5,
                     quantity := 2, price_cents := 1000 }],
    orders := [], order_items := [], users := [], stripe_webhook_events := [], next_id := 300 }

/-- A checkout session whose second frozen line item carries no product
metadata: its `order_items` INSERT passes NULL for the NOT NULL
`product_id` column and the statement throws — after the order row and the
first line's statements have already committed. -/
def sC2 : CheckoutSessionObj :=
  { id := "cs_2", payment_intent := "pi_2", cart_id := some 7, user_id := none,
    amount_subtotal := 3000, amount_total := 3000,
    customer_email := "shopper@example.com", customer := none,
    line_items :=
      [{ description := "Obsidian Hoodie", quantity := 2, unit_amount := 1000,
         meta_product_id := some 1, meta_variant_id := some 5 },
       { description := "Mystery Line", quantity := 1, unit_amount := 1000,
         meta_product_id := none, meta_variant_id := none }] }

/-- A correctly signed delivery of the partially-failing event evt_2. -/
def reqC2 : WebhookRequest :=
  { signature_valid := true,
    event := { id := "evt_2", data := .checkoutSessionCompleted sC2 } }

/-- The state reached at the failure point of processing evt_2. -/
def dbC2p : DB := exDB (processStripeEvent dbC2 reqC2.event)

/-- The error text of the statement that fails while processing evt_2. -/
def failMsgC2 : String :=
  "null value in column product_id of order_items violates not-null constraint"

/-- Empty state: no orders at all, so the refund below matches nothing. -/
def dbC5 : DB :=
  { products := [], variants := [], carts := [], cart_items := [],
    orders := [], order_items := [], users := [], stripe_webhook_events := [], next_id := 0 }

/-- A correctly signed `charge.refunded` event for a payment intent with no
matching order. -/
def reqC5 : WebhookRequest :=
  { signature_valid := true,
    event := { id := "evt_refund_1", data := .chargeRefunded "pi_missing" } }

/-- State with one paid order correlated to payment intent pi_9. -/
def dbC5w : DB :=
  { products := [], variants := [], carts := [], cart_items := [],
    orders := [{ id := 1, user_id := none, status := "paid",
                 stripe_session_id := some "cs_9", stripe_payment_intent_id := some "pi_9",
                 subtotal_cents := 500, total_cents := 500,
                 customer_email := "payer@example.com" }],
    order_items := [], users := [], stripe_webhook_events := [], next_id := 2 }

/-- A correctly signed `charge.refunded` event matching the order of dbC5w. -/
def reqC5w : WebhookRequest :=
  { signature_valid := true,
    event := { id := "evt_refund_2", data := .chargeRefunded "pi_9" } }

/-- Empty state for the invalid-signature witness. -/
def dbC7 : DB :=
  { products := [], variants := [], carts := [], cart_items := [],
    orders := [], order_items := [], users := [], stripe_webhook_events := [], next_id := 0 }

/-- A delivery whose `stripe-signature` header fails verification. -/
def reqC7 : WebhookRequest :=
  { signature_valid := false,
    event := { id := "evt_bad_sig", data := .other "anything.at.all" } }

/-- Settlement state for the failed-then-redelivered run. -/
def dbC10 : DB :=
  { products := [{ id := 1, price_cents := 1000, is_active := true }],
    variants := [],
    carts := [{ id := 7, user_id := none, session_token := some "tok10", stripe_session_id := some "cs_10" }],
    cart_items := [{ id := 20, cart_id := 7, product_id := 1, variant_id := none,
                     quantity := 1, price_cents := 1000 }],
    orders := [], order_items := [], users := [], stripe_webhook_events := [], next_id := 400 }

/-- A checkout session whose single frozen line item carries no product
metadata, so its processing throws. -/
def sC10 : CheckoutSessionObj :=
  { id := "cs_10", payment_intent := "pi_10", cart_id := some 7, user_id := none,
    amount_subtotal := 1000, amount_total := 1000,
    customer_email := "shopper@example.com", customer := none,
    line_items := [{ description := "Mystery Line", quantity := 1, unit_amount := 1000,
                     meta_product_id := none, meta_variant_id := none }] }

/-- A correctly signed delivery of the failing event evt_10. -/
def reqC10 : WebhookRequest :=
  { signature_valid := true,
    event := { id := "evt_10", data := .checkoutSessionCompleted sC10 } }

/-- The state reached at the failure point of processing evt_10. -/
def dbC10p : DB := exDB (processStripeEvent dbC10 reqC10.event)

/-- The error text of the statement that fails while processing evt_10. -/
def failMsgC10 : String :=
  "null value in column product_id of order_items violates not-null constraint"

/-! ### Helper lemmas -/

/-- A single stock write of either kind yields a non-negative value: both
UPDATE expressions are of the form `GREATEST(0, ...)`. -/
theorem applyStockOp_nonneg (q : Int) (op : StockOp) : 0 ≤ applyStockOp q op := by
  cases op with
  | settle n => exact le_max_left 0 (q - n)
  | adjust a => exact le_max_left 0 (q + a)

/-- A sequence of stock writes starting from a non-negative value stays
non-negative. -/
theorem applyStockOps_nonneg (ops : List StockOp) :
    ∀ q : Int, 0 ≤ q → 0 ≤ applyStockOps q ops := by
  induction ops with
  | nil => intro q hq; exact hq
  | cons op rest ih =>
    intro q hq
    simpa [applyStockOps, List.foldl_cons] using
      ih (applyStockOp q op) (applyStockOp_nonneg q op)

/-! ### Claim C6 -/

/-- Claim C6: for every variant stock value and every sequence of stock
decrements — settlement decrements and admin relative adjustments — the
stored quantity never becomes negative, and a decrement at least as large
as the remaining stock clamps the stored value at zero. The source
expressions are `GREATEST(0, stock_qty - n)` (settlement) and
`GREATEST(0, stock_qty + adj)` (admin relative adjustment); the schema
guarantees the starting value is non-negative
(`stock_qty INT NOT NULL DEFAULT 0 CHECK (stock_qty >= 0)`). -/
theorem stock_clamped_never_negative (q n : Int) (ops : List StockOp) (hq : 0 ≤ q) :
    0 ≤ applyStockOps q ops ∧ (q ≤ n → decrementStock q n = 0) := by
  refine ⟨applyStockOps_nonneg ops q hq, fun hle => ?_⟩
  unfold decrementStock
  exact max_eq_left (by omega)

/-- Witness for C6: stock 2, a settlement decrement of 5, an adjustment of
-4 and another decrement of 1 never go negative, and decrementing 2 by 5
clamps at zero. -/
theorem stock_clamped_never_negative_witness :
    0 ≤ applyStockOps 2 [.settle 5, .adjust (-4), .settle 1] ∧
    ((2 : Int) ≤ 5 → decrementStock 2 5 = 0) :=
  stock_clamped_never_negative 2 5 [.settle 5, .adjust (-4), .settle 1] (by decide)

/-! ### Claim C7 -/

/-- Claim C7: a webhook request whose cryptographic signature fails
verification is rejected with the 400 'Webhook error' before the dedup
check and before any processing: the returned state is exactly the input
state, so no business row changes and no ProcessedEvent row is recorded
for the event. -/
theorem invalid_signature_rejected_before_processing (db : DB) (req : WebhookRequest)
    (h : req.signature_valid = false) :
    handleStripeWebhook db req = (.badSignature, db) := by
  simp [handleStripeWebhook, h]

/-- Witness for C7: the badly signed delivery reqC7 is rejected and leaves
the empty state untouched. -/
theorem invalid_signature_rejected_before_processing_witness :
    handleStripeWebhook dbC7 reqC7 = (.badSignature, dbC7) :=
  invalid_signature_rejected_before_processing dbC7 reqC7 rfl

/-! ### Claim C4 -/

/-- Claim C4 (code bug, evaluated at the failing input): two successful
addItem calls for the same (cart 7, product 1, no variant) leave TWO
CartItem rows of quantity 1 each, not one row of quantity 2. The
no-variant INSERT carries a NULL `variant_id`, the unique constraint
`UNIQUE(cart_id, product_id, variant_id)` treats NULLs as distinct, so the
statement's own `ON CONFLICT ... DO UPDATE SET quantity = quantity + q`
arm — which documents the intended increment — can never fire. -/
theorem addItem_null_variant_duplicate_rows_eval :
    ((addItem (addItem dbC4 7 1 none 1).1 7 1 none 1).1.cart_items.filter
        (fun ci => ci.cart_id == 7 && ci.product_id == 1 && ci.variant_id == none)).length = 2 ∧
    (addItem (addItem dbC4 7 1 none 1).1 7 1 none 1).1.cart_items.map CartItem.quantity
      = [1, 1] := by
  decide

/-! ### Claim C3 -/

/-- Counterexample for C3: cart 7 already holds quantity 3 of
(product 1, variant 5) and the variant's live stock is 3, so the claimed
cumulative check (3 existing + 1 requested = 4 > 3) demands
InsufficientStock — but the code compares stock only against the newly
requested quantity (3 ≥ 1) and succeeds, raising the line to quantity 4,
which exceeds the live stock. -/
theorem addItem_ignores_cumulative_quantity_cex :
    dbC3.cart_items.map CartItem.quantity = [3] ∧
    (findVariant dbC3 5).map Variant.stock_qty = some 3 ∧
    (addItem dbC3 7 1 (some 5) 1).2 ≠ .insufficientStock ∧
    (addItem dbC3 7 1 (some 5) 1).1.cart_items.map CartItem.quantity = [4] := by
  decide

/-- Claim C3 as amended: when a variant is given, addItem fails with
InsufficientStock exactly when the variant's live stock is less than the
NEWLY requested quantity alone — the quantity already in the cart for that
line is not considered, and no `qty ≥ 1` validation is performed by the
handler — and on such a failure the state is left unchanged, so the cart
keeps no phantom zero-quantity row. -/
theorem addItem_stock_check_new_quantity_only
    (db : DB) (cartId pid v : Nat) (qty : Int) (product : Product) (variant : Variant)
    (hp : findProduct db pid = some product)
    (hv : findVariant db v = some variant) :
    ((addItem db cartId pid (some v) qty).2 = .insufficientStock ↔ variant.stock_qty < qty) ∧
    (variant.stock_qty < qty → addItem db cartId pid (some v) qty = (db, .insufficientStock)) := by
  by_cases hlt : variant.stock_qty < qty
  · constructor
    · simp [addItem, hp, hv, hlt]
    · intro _; simp [addItem, hp, hv, hlt]
  · constructor
    · constructor
      · intro h
        exfalso
        revert h
        simp only [addItem, hp, hv, if_neg hlt]
        cases h2 : insertCartItemUpsert db cartId pid (some v) qty
            (match variant.price_cents with
             | some pc => pc
             | none => product.price_cents) with
        | error e => simp [h2]
        | ok r => simp [h2]
      · intro h; exact absurd h hlt
    · intro h; exact absurd h hlt

/-- Witness for C3's amended claim: in dbC3 (live stock 3), requesting
quantity 5 is refused as InsufficientStock and the state is unchanged. -/
theorem addItem_stock_check_new_quantity_only_witness :
    ((addItem dbC3 7 1 (some 5) 5).2 = .insufficientStock ↔ (3 : Int) < 5) ∧
    ((3 : Int) < 5 → addItem dbC3 7 1 (some 5) 5 = (dbC3, .insufficientStock)) :=
  addItem_stock_check_new_quantity_only dbC3 7 1 5 5
    { id := 1, price_cents := 1000, is_active := true }
    { id := 5, price_cents := none, stock_qty := 3 } (by decide) (by decide)

/-! ### Claim C5 -/

/-- Counterexample for C5: a `charge.refunded` event whose payment intent
matches no order is recorded as a SUCCESS row (`error = none`) and
acknowledged `received`, not as Recorded-Failure with a descriptive error:
the UPDATE silently matches zero rows and nothing ever throws. -/
theorem refund_without_order_recorded_success_cex :
    dbC5.orders = [] ∧
    handleStripeWebhook dbC5 reqC5 =
      (.ackReceived,
       { dbC5 with stripe_webhook_events :=
           [{ id := "evt_refund_1", type := "charge.refunded", error := none }] }) := by
  decide

/-- Claim C5 as amended: on a `charge.refunded` event, every order matching
the payment intent has its status set to refunded (matching zero rows is a
silent no-op, not an error), the event is recorded as a success row with
no error text whether or not a matching order exists, and the intake
acknowledges success without crashing. -/
theorem charge_refunded_always_records_success
    (db : DB) (req : WebhookRequest) (pi : String)
    (hsig : req.signature_valid = true)
    (hfresh : seenEvent db req.event.id = false)
    (hdata : req.event.data = .chargeRefunded pi) :
    handleStripeWebhook db req =
      (.ackReceived,
       { db with
         orders := db.orders.map fun o =>
           if o.stripe_payment_intent_id == some pi then { o with status := "refunded" } else o,
         stripe_webhook_events := db.stripe_webhook_events ++
           [{ id := req.event.id, type := eventType req.event.data, error := none }] }) := by
  simp [handleStripeWebhook, hsig, hfresh, processStripeEvent, hdata]

/-- Witness for C5's amended claim: refunding pi_9 in dbC5w flips the
matching order to refunded and appends a success ledger row. -/
theorem charge_refunded_always_records_success_witness :
    handleStripeWebhook dbC5w reqC5w =
      (.ackReceived,
       { dbC5w with
         orders := dbC5w.orders.map fun o =>
           if o.stripe_payment_intent_id == some "pi_9" then { o with status := "refunded" } else o,
         stripe_webhook_events := dbC5w.stripe_webhook_events ++
           [{ id := reqC5w.event.id, type := eventType reqC5w.event.data, error := none }] }) :=
  charge_refunded_always_records_success dbC5w reqC5w "pi_9" rfl rfl rfl

/-! ### Frame lemmas for the settlement statements -/

/-- A successful `order_items` INSERT touches only `order_items` and the id
generator. -/
theorem insertOrderItem_ok_frame (db : DB) (oid : Nat) (li : SessionLineItem) (db2 : DB)
    (h : insertOrderItem db oid li = .ok db2) :
    db2.stripe_webhook_events = db.stripe_webhook_events ∧ db2.orders = db.orders ∧
    db2.carts = db.carts ∧ db2.cart_items = db.cart_items := by
  unfold insertOrderItem at h
  split at h
  · exact absurd h (by simp)
  · split at h
    · injection h with h
      subst h
      exact ⟨rfl, rfl, rfl, rfl⟩
    · exact absurd h (by simp)

/-- A stock UPDATE touches only `variants`. -/
theorem settleDecrement_frame (db : DB) (vid : Nat) (q : Int) :
    (settleDecrement db vid q).stripe_webhook_events = db.stripe_webhook_events ∧
    (settleDecrement db vid q).orders = db.orders ∧
    (settleDecrement db vid q).carts = db.carts ∧
    (settleDecrement db vid q).cart_items = db.cart_items :=
  ⟨rfl, rfl, rfl, rfl⟩

/-- The line-item loop — run to completion or stopped at a failing
statement — never touches the dedup ledger, the orders, the carts or the
cart items. -/
theorem processLineItems_frame (oid : Nat) (lis : List SessionLineItem) :
    ∀ db : DB,
      (exDB (processLineItems oid db lis)).stripe_webhook_events = db.stripe_webhook_events ∧
      (exDB (processLineItems oid db lis)).orders = db.orders ∧
      (exDB (processLineItems oid db lis)).carts = db.carts ∧
      (exDB (processLineItems oid db lis)).cart_items = db.cart_items := by
  induction lis with
  | nil => intro db; exact ⟨rfl, rfl, rfl, rfl⟩
  | cons li rest ih =>
    intro db
    unfold processLineItems
    cases h : insertOrderItem db oid li with
    | error e => exact ⟨rfl, rfl, rfl, rfl⟩
    | ok db1 =>
      obtain ⟨h1, h2, h3, h4⟩ := insertOrderItem_ok_frame db oid li db1 h
      cases hv : li.meta_variant_id with
      | none =>
        obtain ⟨g1, g2, g3, g4⟩ := ih db1
        exact ⟨g1.trans h1, g2.trans h2, g3.trans h3, g4.trans h4⟩
      | some vid =>
        obtain ⟨g1, g2, g3, g4⟩ := ih (settleDecrement db1 vid li.quantity)
        exact ⟨g1.trans h1, g2.trans h2, g3.trans h3, g4.trans h4⟩

/-- A successful `orders` INSERT touches only `orders` and the id
generator, appending exactly one row. -/
theorem insertOrder_ok_frame (db : DB) (s : CheckoutSessionObj) (db1 : DB) (oid : Nat)
    (h : insertOrder db s = .ok (db1, oid)) :
    db1.stripe_webhook_events = db.stripe_webhook_events ∧
    db1.carts = db.carts ∧ db1.cart_items = db.cart_items ∧
    db1.orders.length = db.orders.length + 1 := by
  unfold insertOrder at h
  split at h
  · exact absurd h (by simp)
  · split at h
    · exact absurd h (by simp)
    · injection h with h
      injection h with h hoid
      subst h
      refine ⟨rfl, rfl, rfl, ?_⟩
      simp

/-- Processing a `checkout.session.completed` event — committed or stopped
at a failing statement — never touches the dedup ledger. -/
theorem processCheckoutCompleted_events (db : DB) (s : CheckoutSessionObj) :
    (exDB (processCheckoutCompleted db s)).stripe_webhook_events = db.stripe_webhook_events := by
  unfold processCheckoutCompleted
  split
  · rfl
  next cartId hc =>
    split
    next e ho => rfl
    next db1 oid ho =>
      obtain ⟨he1, _, _, _⟩ := insertOrder_ok_frame db s db1 oid ho
      split
      next r2 hl =>
        have := (processLineItems_frame oid s.line_items db1).1
        rw [hl] at this
        exact this.trans he1
      next db2 hl =>
        have hev2 : db2.stripe_webhook_events = db1.stripe_webhook_events := by
          have := (processLineItems_frame oid s.line_items db1).1
          rw [hl] at this
          exact this
        cases s.user_id <;> cases s.customer <;> exact hev2.trans he1

/-- No branch of the event switch touches the dedup ledger: the ledger row
is written only by the webhook route itself, after processing. -/
theorem processStripeEvent_events (db : DB) (e : StripeEvent) :
    (exDB (processStripeEvent db e)).stripe_webhook_events = db.stripe_webhook_events := by
  cases hd : e.data with
  | checkoutSessionCompleted s =>
    simpa [processStripeEvent, hd] using processCheckoutCompleted_events db s
  | paymentIntentPaymentFailed pi => simp [processStripeEvent, hd, exDB]
  | chargeRefunded pi => simp [processStripeEvent, hd, exDB]
  | other t => simp [processStripeEvent, hd, exDB]

/-- A committed `checkout.session.completed` settlement with a correlated
cart creates exactly one order row. -/
theorem processCheckoutCompleted_ok_orders_length
    (db db4 : DB) (s : CheckoutSessionObj) (cid : Nat)
    (hc : s.cart_id = some cid)
    (h : processCheckoutCompleted db s = .ok db4) :
    db4.orders.length = db.orders.length + 1 := by
  unfold processCheckoutCompleted at h
  split at h
  next hnone => rw [hnone] at hc; exact absurd hc (by simp)
  next cartId hsome =>
    split at h
    next e ho => exact absurd h (by simp)
    next db1 oid ho =>
      obtain ⟨_, _, _, hlen⟩ := insertOrder_ok_frame db s db1 oid ho
      split at h
      next r2 hl => exact absurd h (by simp)
      next db2 hl =>
        have h2 : db2.orders = db1.orders := by
          have := (processLineItems_frame oid s.line_items db1).2.1
          rw [hl] at this
          exact this
        have hord2 : db2.orders.length = db.orders.length + 1 := by
          rw [h2]; exact hlen
        rcases hu : s.user_id with _ | uid <;> rcases hcu : s.customer with _ | cust <;>
          (rw [hu, hcu] at h; injection h with h; subst h; exact hord2)

/-- Dedup short-circuit: a correctly signed delivery of an already-recorded
event identifier is answered success-no-op with the state untouched. -/
theorem handle_duplicate (db : DB) (req : WebhookRequest)
    (hsig : req.signature_valid = true) (hseen : seenEvent db req.event.id = true) :
    handleStripeWebhook db req = (.ackDuplicate, db) := by
  simp [handleStripeWebhook, hsig, hseen]

/-- Repeated deliveries of an already-recorded event identifier all answer
success-no-op and never change the state. -/
theorem deliver_duplicates (req : WebhookRequest) (m : Nat) (db : DB)
    (hsig : req.signature_valid = true) (hseen : seenEvent db req.event.id = true) :
    deliverRepeatedly db req m = (db, List.replicate m .ackDuplicate) := by
  induction m with
  | zero => rfl
  | succ k ih =>
    simp [deliverRepeatedly, handle_duplicate db req hsig hseen, ih, List.replicate_succ]

/-- The first delivery of a fresh, correctly signed event whose processing
commits: acknowledged `received`, with the success ledger row appended. -/
theorem handle_ok_step (db db1 : DB) (req : WebhookRequest)
    (hsig : req.signature_valid = true)
    (hfresh : seenEvent db req.event.id = false)
    (hok : processStripeEvent db req.event = .ok db1) :
    handleStripeWebhook db req =
      (.ackReceived,
       { db1 with stripe_webhook_events := db1.stripe_webhook_events ++
           [{ id := req.event.id, type := eventType req.event.data, error := none }] }) := by
  simp [handleStripeWebhook, hsig, hfresh, hok]

/-- The first delivery of a fresh, correctly signed event whose processing
throws: the 500 is surfaced and the failure ledger row carrying the error
text is appended to the state reached at the failure point. -/
theorem handle_error_step (db dbp : DB) (req : WebhookRequest) (msg : String)
    (hsig : req.signature_valid = true)
    (hfresh : seenEvent db req.event.id = false)
    (herr : processStripeEvent db req.event = .error (dbp, msg)) :
    handleStripeWebhook db req =
      (.processingFailed,
       { dbp with stripe_webhook_events := dbp.stripe_webhook_events ++
           [{ id := req.event.id, type := eventType req.event.data, error := some msg }] }) := by
  have hev : dbp.stripe_webhook_events = db.stripe_webhook_events := by
    have := processStripeEvent_events db req.event
    rw [herr] at this
    exact this
  have hseenp : seenEvent dbp req.event.id = false := by
    unfold seenEvent at hfresh ⊢
    rw [hev]
    exact hfresh
  simp [handleStripeWebhook, hsig, hfresh, herr, recordEventFailure, hseenp]

/-! ### Claim C1 -/

/-- Claim C1: delivering the same correctly signed payment-outcome event
identifier N ≥ 1 times produces N acknowledgments — the first `received`,
every later one the success-no-op duplicate acknowledgment — and the state
after N deliveries equals the state after the first: the settlement logic
runs once, so there is exactly one order (one more order row than before,
stated for the successful `checkout.session.completed` case) and exactly
one stock decrement per line item; once the ProcessedEvent row exists, no
later delivery reprocesses. -/
theorem webhook_redelivery_idempotent
    (db db1 : DB) (req : WebhookRequest) (n : Nat)
    (hsig : req.signature_valid = true)
    (hfresh : seenEvent db req.event.id = false)
    (hok : processStripeEvent db req.event = .ok db1)
    (hn : 1 ≤ n) :
    deliverRepeatedly db req n =
      ({ db1 with stripe_webhook_events := db1.stripe_webhook_events ++
           [{ id := req.event.id, type := eventType req.event.data, error := none }] },
       .ackReceived :: List.replicate (n - 1) .ackDuplicate) ∧
    (∀ s cid, req.event.data = .checkoutSessionCompleted s → s.cart_id = some cid →
      db1.orders.length = db.orders.length + 1) := by
  have hev : db1.stripe_webhook_events = db.stripe_webhook_events := by
    have := processStripeEvent_events db req.event
    rw [hok] at this
    exact this
  have hseen : seenEvent
      { db1 with stripe_webhook_events := db1.stripe_webhook_events ++
          [{ id := req.event.id, type := eventType req.event.data, error := none }] }
      req.event.id = true := by
    simp [seenEvent, List.any_append]
  constructor
  · obtain ⟨m, rfl⟩ : ∃ m, n = m + 1 :=
      ⟨n - 1, (Nat.succ_pred_eq_of_pos hn).symm⟩
    simp only [deliverRepeatedly, handle_ok_step db db1 req hsig hfresh hok]
    rw [deliver_duplicates req m _ hsig hseen]
    simp
  · intro s cid hs hc
    have : processCheckoutCompleted db s = .ok db1 := by
      have := hok
      rw [processStripeEvent, hs] at this
      exact this
    exact processCheckoutCompleted_ok_orders_length db db1 s cid hc this

/-- Witness for C1: three deliveries of the settlement event evt_1 yield
one `received` then two duplicate acknowledgments, the state of a single
delivery, and exactly one new order row. -/
theorem webhook_redelivery_idempotent_witness :
    deliverRepeatedly dbC1 reqC1 3 =
      ({ dbC1ok with stripe_webhook_events := dbC1ok.stripe_webhook_events ++
           [{ id := reqC1.event.id, type := eventType reqC1.event.data, error := none }] },
       .ackReceived :: List.replicate (3 - 1) .ackDuplicate) ∧
    dbC1ok.orders.length = dbC1.orders.length + 1 := by
  have h := webhook_redelivery_idempotent dbC1 dbC1ok reqC1 3 rfl rfl rfl (by decide)
  exact ⟨h.1, h.2 sC1 7 rfl rfl⟩

/-! ### Claim C2 -/

/-- Counterexample for C2: processing evt_2 throws on its second line item
(its `order_items` INSERT passes NULL for the NOT NULL `product_id`), yet
the already-committed statements stay visible: the final state holds the
order row and the first order item of a two-line session, the cart was
never cleared — so partial Order state IS visible after a mid-processing
throw, contradicting the claimed all-or-nothing atomicity. -/
theorem settlement_partial_state_cex :
    (handleStripeWebhook dbC2 reqC2).1 = .processingFailed ∧
    (handleStripeWebhook dbC2 reqC2).2.orders.length = 1 ∧
    (handleStripeWebhook dbC2 reqC2).2.order_items.length = 1 ∧
    sC2.line_items.length = 2 ∧
    (handleStripeWebhook dbC2 reqC2).2.cart_items ≠ [] ∧
    (handleStripeWebhook dbC2 reqC2).2.stripe_webhook_events.any
      (fun r => r.id == reqC2.event.id && r.error != none) = true := by
  decide

/-- Claim C2 as amended: settlement runs as a sequence of individually
committed statements, so when processing throws partway through, the
statements already executed — the Order, the earlier OrderItems and stock
decrements — remain visible exactly as committed; a Recorded-Failure
ledger row carrying the error text is written instead of Recorded-Success,
and a server error (500) is surfaced to the caller so the processor
retries. -/
theorem settlement_failure_keeps_executed_statements
    (db dbp : DB) (req : WebhookRequest) (msg : String)
    (hsig : req.signature_valid = true)
    (hfresh : seenEvent db req.event.id = false)
    (herr : processStripeEvent db req.event = .error (dbp, msg)) :
    handleStripeWebhook db req =
      (.processingFailed,
       { dbp with stripe_webhook_events := dbp.stripe_webhook_events ++
           [{ id := req.event.id, type := eventType req.event.data, error := some msg }] }) :=
  handle_error_step db dbp req msg hsig hfresh herr

/-- Witness for C2's amended claim: delivering evt_2 surfaces the 500 and
appends the failure row to the partially-committed state dbC2p. -/
theorem settlement_failure_keeps_executed_statements_witness :
    handleStripeWebhook dbC2 reqC2 =
      (.processingFailed,
       { dbC2p with stripe_webhook_events := dbC2p.stripe_webhook_events ++
           [{ id := reqC2.event.id, type := eventType reqC2.event.data, error := some failMsgC2 }] }) :=
  settlement_failure_keeps_executed_statements dbC2 dbC2p reqC2 failMsgC2 rfl rfl rfl

/-! ### Claim C10 -/

/-- Claim C10: once processing of a settlement event has thrown and the
ledger row carrying the error text has been written, every subsequent
delivery of the same event identifier is acknowledged as a duplicate
success without reprocessing and without changing the state — the dedup
check tests only row existence, not the outcome column, so a failed event
is never retried into an order by redelivery. -/
theorem failed_event_redelivery_acked_duplicate
    (db dbp : DB) (req : WebhookRequest) (msg : String)
    (hsig : req.signature_valid = true)
    (hfresh : seenEvent db req.event.id = false)
    (herr : processStripeEvent db req.event = .error (dbp, msg)) :
    ∃ dbf : DB,
      handleStripeWebhook db req = (.processingFailed, dbf) ∧
      (∃ r ∈ dbf.stripe_webhook_events, r.id = req.event.id ∧ r.error = some msg) ∧
      handleStripeWebhook dbf req = (.ackDuplicate, dbf) := by
  refine ⟨{ dbp with stripe_webhook_events := dbp.stripe_webhook_events ++
      [{ id := req.event.id, type := eventType req.event.data, error := some msg }] },
    handle_error_step db dbp req msg hsig hfresh herr, ?_, ?_⟩
  · exact ⟨{ id := req.event.id, type := eventType req.event.data, error := some msg },
      by simp, rfl, rfl⟩
  · refine handle_duplicate _ req hsig ?_
    simp [seenEvent, List.any_append]

/-- Witness for C10: after the failed first delivery of evt_10, its failure
row exists and a redelivery is acknowledged as a duplicate with the state
untouched. -/
theorem failed_event_redelivery_acked_duplicate_witness :
    ∃ dbf : DB,
      handleStripeWebhook dbC10 reqC10 = (.processingFailed, dbf) ∧
      (∃ r ∈ dbf.stripe_webhook_events, r.id = reqC10.event.id ∧ r.error = some failMsgC10) ∧
      handleStripeWebhook dbf reqC10 = (.ackDuplicate, dbf) :=
  failed_event_redelivery_acked_duplicate dbC10 dbC10p reqC10 failMsgC10 rfl rfl rfl

/-! ### Claims C8 and C9 -/

/-- Filtering twice with the same predicate filters once. -/
theorem filter_twice {α : Type} (p : α → Bool) (l : List α) :
    (l.filter p).filter p = l.filter p := by
  induction l with
  | nil => rfl
  | cons a t ih =>
    by_cases h : p a <;> simp [List.filter_cons, h, ih]

/-- Claim C8: for every resolvable cart, removeItem always answers success
with the recomputed snapshot; running it a second time with the same item
identifier returns the identical state and snapshot (idempotence); and
removing an item identifier that is not in the cart is a no-op that leaves
the state unchanged. -/
theorem removeItem_idempotent_no_op
    (db : DB) (uid : Option Nat) (tok : Option String) (itemId : Nat) (cartRow : Cart)
    (hres : resolveCartRO db uid tok = some cartRow) :
    (removeItem db uid tok itemId).2 =
      .ok (getCartWithItems (removeItem db uid tok itemId).1 cartRow.id) ∧
    removeItem (removeItem db uid tok itemId).1 uid tok itemId = removeItem db uid tok itemId ∧
    ((∀ ci ∈ db.cart_items, ¬(ci.id = itemId ∧ ci.cart_id = cartRow.id)) →
      (removeItem db uid tok itemId).1 = db) := by
  have h1 : removeItem db uid tok itemId =
      ({ db with cart_items :=
           db.cart_items.filter fun ci => !(ci.id == itemId && ci.cart_id == cartRow.id) },
       .ok (getCartWithItems
         { db with cart_items :=
             db.cart_items.filter fun ci => !(ci.id == itemId && ci.cart_id == cartRow.id) }
         cartRow.id)) := by
    simp [removeItem, hres]
  refine ⟨by rw [h1], ?_, ?_⟩
  · rw [h1]
    have hres2 : resolveCartRO
        { db with cart_items :=
            db.cart_items.filter fun ci => !(ci.id == itemId && ci.cart_id == cartRow.id) }
        uid tok = some cartRow := hres
    simp only [removeItem, hres2]
    rw [filter_twice]
  · intro hnone
    rw [h1]
    have : db.cart_items.filter
        (fun ci => !(ci.id == itemId && ci.cart_id == cartRow.id)) = db.cart_items := by
      rw [List.filter_eq_self]
      intro ci hci
      have h3 := hnone ci hci
      simp only [Bool.not_eq_true', Bool.and_eq_false_iff, beq_eq_false_iff_ne, ne_eq]
      by_cases hid : ci.id = itemId
      · right; intro hcid; exact h3 ⟨hid, hcid⟩
      · left; exact hid
    rw [this]

/-- Witness for C8: in dbC8, removing item 20 twice gives the same state
and snapshot both times. -/
theorem removeItem_idempotent_no_op_witness :
    removeItem (removeItem dbC8 none (some "tok8") 20).1 none (some "tok8") 20 =
      removeItem dbC8 none (some "tok8") 20 :=
  (removeItem_idempotent_no_op dbC8 none (some "tok8") 20 cartC8 (by decide)).2.1

/-- Claim C9: createSession on a resolvable cart with zero items fails as
EmptyCart and returns the state completely unchanged; on a cart with
items it succeeds, and the full output state is the input state with ONLY
the carts table changed — the resolved cart's payment-session identifier
is overwritten with the newly returned one — so cart items, stock
counters, orders and every other table are untouched. -/
theorem createSession_frame_and_empty_cart
    (db : DB) (uid : Option Nat) (tok : Option String) (sid : String) (cartRow : Cart)
    (hres : resolveCartRO db uid tok = some cartRow) :
    ((getCartWithItems db cartRow.id).items = [] →
        createSession db uid tok sid = (db, .emptyCart)) ∧
    ((getCartWithItems db cartRow.id).items ≠ [] →
        createSession db uid tok sid =
          ({ db with carts := db.carts.map fun ct =>
               if ct.id == cartRow.id then { ct with stripe_session_id := some sid } else ct },
           .ok sid)) := by
  constructor
  · intro h
    simp [createSession, hres, List.isEmpty_iff, h]
  · intro h
    simp [createSession, hres, List.isEmpty_iff, h]

/-- Witness for C9: in dbC9 the checkout session succeeds and the only
state change is overwriting cart 7's prior session identifier cs_old with
cs_new. -/
theorem createSession_frame_and_empty_cart_witness :
    createSession dbC9 none (some "tok9") "cs_new" =
      ({ dbC9 with carts := dbC9.carts.map fun ct =>
           if ct.id == cartC9.id then { ct with stripe_session_id := some "cs_new" } else ct },
       .ok "cs_new") :=
  (createSession_frame_and_empty_cart dbC9 none (some "tok9") "cs_new" cartC9 (by decide)).2
    (by decide)

end Bizify
